import Mathlib

/-! pebble-vault: a verification development

A shallow embedding of `src/c/pebble-vault.c` (a Pebble watch face) and proofs
about its drawing routines and display-data refreshers.

Conventions of the embedding.

* The drawing context `GContext` is a value: the current text colour, the
  current stroke colour and the list of drawing primitives issued so far, each
  recorded with the colour in force when it was issued.
* `GRect`, `GPoint` and `GSize` come from the SDK header, which is not part of
  the repository; their coordinates are taken as mathematical integers.
* A `char` array is the list of its bytes; the C string it holds is the part
  before the first NUL byte.
* The host services (clock, 12/24-hour preference, health, battery) are read
  from a `Host` record that stays fixed during a callback.
-/

namespace PebbleVault

/-! ## Graphics types of the SDK -/

/-- The colours of the SDK palette that the program uses. -/
inductive GColor where
  | GColorWhite
  | GColorBlack
  | GColorLightGray
  | GColorDarkGray
  deriving DecidableEq, Repr

/-- A point of the drawing surface (`GPoint`). -/
structure GPoint where
  x : Int
  y : Int
  deriving DecidableEq, Repr

/-- A width and a height (`GSize`). -/
structure GSize where
  w : Int
  h : Int
  deriving DecidableEq, Repr

/-- A rectangle: its origin and its size (`GRect`). -/
structure GRect where
  origin : GPoint
  size : GSize
  deriving DecidableEq, Repr

/-- The SDK constructor `GRect(x, y, w, h)`. -/
def GRect.make (x y w h : Int) : GRect :=
  { origin := { x := x, y := y }, size := { w := w, h := h } }

/-- Text overflow modes of the SDK. -/
inductive GTextOverflowMode where
  | GTextOverflowModeWordWrap
  | GTextOverflowModeTrailingEllipsis
  | GTextOverflowModeFill
  deriving DecidableEq, Repr

/-- Horizontal text alignments of the SDK. -/
inductive GTextAlignment where
  | GTextAlignmentLeft
  | GTextAlignmentCenter
  | GTextAlignmentRight
  deriving DecidableEq, Repr

/-- A font handle, identified by its resource key. -/
structure GFont where
  key : String
  deriving DecidableEq, Repr

/-- A drawing primitive as it reaches the surface, with the colour in force. -/
inductive DrawOp where
  | text (color : GColor) (str : String) (font : GFont) (box : GRect)
      (overflow : GTextOverflowMode) (alignment : GTextAlignment)
  | line (color : GColor) (p0 p1 : GPoint)
  deriving DecidableEq, Repr

/-- The drawing context: current colours and the primitives issued so far. -/
structure GContext where
  text_color : GColor
  stroke_color : GColor
  ops : List DrawOp
  deriving DecidableEq, Repr

open GColor GTextOverflowMode

/-! ## C strings -/

/-- The NUL byte that ends a C string. -/
def NUL : Char := Char.ofNat 0

/-- The C string held by a `char` array: the bytes before the first NUL. -/
def cstr (buf : List Char) : String :=
  String.mk (buf.takeWhile (fun c => c != NUL))

/-! ## Drawing primitives of the SDK -/

/-- The call `graphics_context_set_text_color(ctx, color)`. -/
def graphics_context_set_text_color (ctx : GContext) (color : GColor) : GContext :=
  { ctx with text_color := color }

/-- The call `graphics_draw_text(ctx, text, font, box, overflow, alignment, NULL)`:
the C string in `text` is drawn in the current text colour. -/
def graphics_draw_text (ctx : GContext) (text : List Char) (font : GFont) (box : GRect)
    (overflow : GTextOverflowMode) (alignment : GTextAlignment) : GContext :=
  { ctx with ops := ctx.ops ++ [DrawOp.text ctx.text_color (cstr text) font box overflow alignment] }

/-- The struct `OutlinedText`: a 32-byte text array, a font and an alignment. -/
structure OutlinedText where
  text : List Char
  font : GFont
  alignment : GTextAlignment
  deriving DecidableEq, Repr

/-- The function `draw_outlined_text(ctx, text_data, bounds)`. -/
def draw_outlined_text (ctx : GContext) (text_data : OutlinedText) (bounds : GRect) : GContext :=
  let text_bounds := bounds
  let ctx := graphics_context_set_text_color ctx GColorWhite
  -- shift left
  let text_bounds := { text_bounds with origin := { text_bounds.origin with x := bounds.origin.x - 1 } }
  let text_bounds := { text_bounds with origin := { text_bounds.origin with y := bounds.origin.y } }
  let ctx := graphics_draw_text ctx text_data.text text_data.font text_bounds
    GTextOverflowModeTrailingEllipsis text_data.alignment
  -- shift right
  let text_bounds := { text_bounds with origin := { text_bounds.origin with x := bounds.origin.x + 1 } }
  let text_bounds := { text_bounds with origin := { text_bounds.origin with y := bounds.origin.y } }
  let ctx := graphics_draw_text ctx text_data.text text_data.font text_bounds
    GTextOverflowModeTrailingEllipsis text_data.alignment
  -- shift up
  let text_bounds := { text_bounds with origin := { text_bounds.origin with x := bounds.origin.x } }
  let text_bounds := { text_bounds with origin := { text_bounds.origin with y := bounds.origin.y - 1 } }
  let ctx := graphics_draw_text ctx text_data.text text_data.font text_bounds
    GTextOverflowModeTrailingEllipsis text_data.alignment
  -- shift down
  let text_bounds := { text_bounds with origin := { text_bounds.origin with x := bounds.origin.x } }
  let text_bounds := { text_bounds with origin := { text_bounds.origin with y := bounds.origin.y + 1 } }
  let ctx := graphics_draw_text ctx text_data.text text_data.font text_bounds
    GTextOverflowModeTrailingEllipsis text_data.alignment
  -- black text in the centre
  let ctx := graphics_context_set_text_color ctx GColorBlack
  let text_bounds := { text_bounds with origin := { text_bounds.origin with x := bounds.origin.x } }
  let text_bounds := { text_bounds with origin := { text_bounds.origin with y := bounds.origin.y } }
  graphics_draw_text ctx text_data.text text_data.font text_bounds
    GTextOverflowModeTrailingEllipsis text_data.alignment

/-- The function `date_layer_update`, given the layer bounds, the two date-line
arrays and the date field (whose font and alignment are used). -/
def date_layer_update (ctx : GContext) (bounds : GRect) (s_date_line1 s_date_line2 : List Char)
    (s_date_text : OutlinedText) : GContext :=
  let line_height : Int := 18
  let line1_bounds := GRect.make bounds.origin.x bounds.origin.y bounds.size.w line_height
  -- white outline for line 1
  let ctx := graphics_context_set_text_color ctx GColorWhite
  let text_bounds := GRect.make (line1_bounds.origin.x - 1) line1_bounds.origin.y
    line1_bounds.size.w line1_bounds.size.h
  let ctx := graphics_draw_text ctx s_date_line1 s_date_text.font text_bounds
    GTextOverflowModeTrailingEllipsis s_date_text.alignment
  let text_bounds := GRect.make (line1_bounds.origin.x + 1) line1_bounds.origin.y
    line1_bounds.size.w line1_bounds.size.h
  let ctx := graphics_draw_text ctx s_date_line1 s_date_text.font text_bounds
    GTextOverflowModeTrailingEllipsis s_date_text.alignment
  let text_bounds := GRect.make line1_bounds.origin.x (line1_bounds.origin.y - 1)
    line1_bounds.size.w line1_bounds.size.h
  let ctx := graphics_draw_text ctx s_date_line1 s_date_text.font text_bounds
    GTextOverflowModeTrailingEllipsis s_date_text.alignment
  let text_bounds := GRect.make line1_bounds.origin.x (line1_bounds.origin.y + 1)
    line1_bounds.size.w line1_bounds.size.h
  let ctx := graphics_draw_text ctx s_date_line1 s_date_text.font text_bounds
    GTextOverflowModeTrailingEllipsis s_date_text.alignment
  -- black text for line 1
  let ctx := graphics_context_set_text_color ctx GColorBlack
  let ctx := graphics_draw_text ctx s_date_line1 s_date_text.font line1_bounds
    GTextOverflowModeTrailingEllipsis s_date_text.alignment
  let line2_bounds := GRect.make bounds.origin.x (bounds.origin.y + line_height) bounds.size.w line_height
  -- white outline for line 2
  let ctx := graphics_context_set_text_color ctx GColorWhite
  let text_bounds := GRect.make (line2_bounds.origin.x - 1) line2_bounds.origin.y
    line2_bounds.size.w line2_bounds.size.h
  let ctx := graphics_draw_text ctx s_date_line2 s_date_text.font text_bounds
    GTextOverflowModeTrailingEllipsis s_date_text.alignment
  let text_bounds := GRect.make (line2_bounds.origin.x + 1) line2_bounds.origin.y
    line2_bounds.size.w line2_bounds.size.h
  let ctx := graphics_draw_text ctx s_date_line2 s_date_text.font text_bounds
    GTextOverflowModeTrailingEllipsis s_date_text.alignment
  let text_bounds := GRect.make line2_bounds.origin.x (line2_bounds.origin.y - 1)
    line2_bounds.size.w line2_bounds.size.h
  let ctx := graphics_draw_text ctx s_date_line2 s_date_text.font text_bounds
    GTextOverflowModeTrailingEllipsis s_date_text.alignment
  let text_bounds := GRect.make line2_bounds.origin.x (line2_bounds.origin.y + 1)
    line2_bounds.size.w line2_bounds.size.h
  let ctx := graphics_draw_text ctx s_date_line2 s_date_text.font text_bounds
    GTextOverflowModeTrailingEllipsis s_date_text.alignment
  -- black text for line 2
  let ctx := graphics_context_set_text_color ctx GColorBlack
  graphics_draw_text ctx s_date_line2 s_date_text.font line2_bounds
    GTextOverflowModeTrailingEllipsis s_date_text.alignment

/-- The function `time_layer_update`, given the layer bounds and the time field. -/
def time_layer_update (ctx : GContext) (bounds : GRect) (s_time_text : OutlinedText) : GContext :=
  draw_outlined_text ctx s_time_text bounds

/-! ## The metal texture generator -/

/-- The conversion `%d` of `printf`: decimal digits, with a minus sign when negative. -/
def fmt_d (v : Int) : List Char :=
  match v with
  | Int.ofNat n => Nat.toDigits 10 n
  | Int.negSucc n => '-' :: Nat.toDigits 10 (n + 1)

/-- The conversion `%02d`: as `%d`, padded with a zero to two characters. -/
def fmt_02d (v : Int) : List Char :=
  if 0 ≤ v ∧ v < 10 then '0' :: fmt_d v else fmt_d v

/-- The output of a `printf` format: `%d` consumes the next argument, every
other character is copied. -/
def vformat : List Char → List Int → List Char
  | [], _ => []
  | '%' :: 'd' :: rest, a :: args => fmt_d a ++ vformat rest args
  | c :: rest, args => c :: vformat rest args

/-- The call `snprintf(buf, size, fmt, args...)`: at most `size - 1` characters
of the output are stored, then a NUL; the bytes after it keep their value. -/
def snprintf (buf : List Char) (size : Nat) (fmt : String) (args : List Int) : List Char :=
  if size = 0 then buf
  else
    let out := (vformat fmt.toList args).take (size - 1) ++ [NUL]
    out ++ buf.drop out.length

/-- The fields of `struct tm` that the program formats. -/
structure Tm where
  tm_min : Int
  tm_hour : Int
  tm_mday : Int
  tm_mon : Int
  tm_year : Int
  deriving DecidableEq, Repr

/-- The hour of the 12-hour clock, as `%I` computes it. -/
def hour12 (tm_hour : Int) : Int :=
  if Int.tmod tm_hour 12 = 0 then 12 else Int.tmod tm_hour 12

/-- The output of a `strftime` format, for the conversions the program uses:
`%H`, `%I`, `%M`, `%m`, `%d` and `%Y`; every other character is copied. -/
def tmformat : List Char → Tm → List Char
  | [], _ => []
  | '%' :: 'H' :: rest, tm => fmt_02d tm.tm_hour ++ tmformat rest tm
  | '%' :: 'I' :: rest, tm => fmt_02d (hour12 tm.tm_hour) ++ tmformat rest tm
  | '%' :: 'M' :: rest, tm => fmt_02d tm.tm_min ++ tmformat rest tm
  | '%' :: 'm' :: rest, tm => fmt_02d (tm.tm_mon + 1) ++ tmformat rest tm
  | '%' :: 'd' :: rest, tm => fmt_02d tm.tm_mday ++ tmformat rest tm
  | '%' :: 'Y' :: rest, tm => fmt_d (tm.tm_year + 1900) ++ tmformat rest tm
  | c :: rest, tm => c :: tmformat rest tm

/-- The call `strftime(buf, maxsize, fmt, tm)`: when the output and its NUL fit
in `maxsize` bytes they are stored and the bytes after them keep their value.
When they do not fit C leaves the array contents unspecified; the array is
then kept as it was, and no theorem below relies on that case. -/
def strftime (buf : List Char) (maxsize : Nat) (fmt : String) (tm : Tm) : List Char :=
  let out := tmformat fmt.toList tm
  if out.length + 1 ≤ maxsize then (out ++ [NUL]) ++ buf.drop (out.length + 1) else buf

/-! ## Program state and host services -/

/-- What the host services answer during one callback. -/
structure Host where
  /-- The broken-down local time returned by `localtime`. -/
  localtime : Tm
  /-- The answer of `clock_is_24h_style()`. -/
  clock_is_24h_style : Bool
  /-- Whether the mask returned by `health_service_metric_accessible` has the
  bit `HealthServiceAccessibilityMaskAvailable`. -/
  steps_available : Bool
  /-- The answer of `health_service_sum_today(HealthMetricStepCount)`. -/
  health_service_sum_today : Int
  /-- The field `charge_percent` of `battery_state_service_peek()`. -/
  charge_percent : Nat
  deriving DecidableEq, Repr

/-- The static variables of the program that the refreshers touch, and the
record of the calls to `layer_mark_dirty` (each with the pointer passed;
`none` is the null pointer). -/
structure AppState where
  s_time_layer : Option Nat
  s_date_layer : Option Nat
  s_steps_value_layer : Option Nat
  s_steps_label_layer : Option Nat
  s_battery_value_layer : Option Nat
  s_battery_label_layer : Option Nat
  s_time_text : OutlinedText
  s_date_text : OutlinedText
  s_date_line1 : List Char
  s_date_line2 : List Char
  s_steps_line1 : List Char
  s_steps_line2 : List Char
  s_battery_line1 : List Char
  s_battery_line2 : List Char
  marked : List (Option Nat)
  deriving DecidableEq, Repr

/-- The call `layer_mark_dirty(layer)`. -/
def layer_mark_dirty (st : AppState) (layer : Option Nat) : AppState :=
  { st with marked := st.marked ++ [layer] }

/-! ## The display-data refreshers -/

/-- The function `update_time`. -/
def update_time (host : Host) (st : AppState) : AppState :=
  let tick_time := host.localtime
  let st := { st with s_time_text := { st.s_time_text with
    text := strftime st.s_time_text.text 32
      (if host.clock_is_24h_style then "%H:%M" else "%I:%M") tick_time } }
  let st := { st with s_date_line1 := strftime st.s_date_line1 16 "%m/%d" tick_time }
  let st := { st with s_date_line2 := strftime st.s_date_line2 16 "%Y" tick_time }
  let st := layer_mark_dirty st st.s_time_layer
  layer_mark_dirty st st.s_date_layer

/-- The function `update_steps`. The division is the one of C, which truncates
towards zero. -/
def update_steps (host : Host) (st : AppState) : AppState :=
  let st :=
    if host.steps_available then
      let steps := host.health_service_sum_today
      let steps_k := Int.tdiv steps 1000
      { st with s_steps_line1 := snprintf st.s_steps_line1 16 "%dk" [steps_k] }
    else
      { st with s_steps_line1 := snprintf st.s_steps_line1 16 "--k" [] }
  let st := { st with s_steps_line2 := snprintf st.s_steps_line2 16 "STEP" [] }
  let st := if st.s_steps_value_layer.isSome then layer_mark_dirty st st.s_steps_value_layer else st
  if st.s_steps_label_layer.isSome then layer_mark_dirty st st.s_steps_label_layer else st

/-- The function `update_battery`. -/
def update_battery (host : Host) (st : AppState) : AppState :=
  let charge_state := host.charge_percent
  let st := { st with s_battery_line1 := snprintf st.s_battery_line1 16 "%d" [(charge_state : Int)] }
  let st := { st with s_battery_line2 := snprintf st.s_battery_line2 16 "BAT" [] }
  let st := if st.s_battery_value_layer.isSome then layer_mark_dirty st st.s_battery_value_layer else st
  if st.s_battery_label_layer.isSome then layer_mark_dirty st st.s_battery_label_layer else st

/-! ## The host callbacks -/

/-- The event types of the health service. -/
inductive HealthEventType where
  | HealthEventSignificantUpdate
  | HealthEventMovementUpdate
  | HealthEventSleepUpdate
  | HealthEventMetricAlert
  | HealthEventHeartRateUpdate
  deriving DecidableEq, Repr

/-- The function `battery_handler`. -/
def battery_handler (host : Host) (st : AppState) : AppState :=
  update_battery host st

/-- The function `health_handler`. -/
def health_handler (host : Host) (event : HealthEventType) (st : AppState) : AppState :=
  if event = HealthEventType.HealthEventMovementUpdate then update_steps host st else st

/-- The function `tick_handler`. -/
def tick_handler (host : Host) (st : AppState) : AppState :=
  let st := update_time host st
  let st := update_steps host st
  update_battery host st

/-! ## Vocabulary of the statements -/

/-- The primitives a routine adds to a context that had issued none. -/
def issued (f : GContext → GContext) : List DrawOp :=
  (f { text_color := GColor.GColorBlack, stroke_color := GColor.GColorBlack, ops := [] }).ops

/-- The rectangle `r` moved by `(dx, dy)`, its size kept. -/
def GRect.shift (r : GRect) (dx dy : Int) : GRect :=
  { origin := { x := r.origin.x + dx, y := r.origin.y + dy }, size := r.size }

/-- The eight text arrays of the program, in declaration order. -/
def text_buffers (st : AppState) : List (List Char) :=
  [st.s_time_text.text, st.s_date_text.text, st.s_date_line1, st.s_date_line2,
   st.s_steps_line1, st.s_steps_line2, st.s_battery_line1, st.s_battery_line2]

/-- A sample state: arrays filled with NUL bytes, every layer created. -/
def sample_state : AppState :=
  { s_time_layer := some 1, s_date_layer := some 2, s_steps_value_layer := some 3,
    s_steps_label_layer := some 4, s_battery_value_layer := some 5,
    s_battery_label_layer := some 6,
    s_time_text := { text := List.replicate 32 NUL, font := { key := "LECO_42_NUMBERS" },
                     alignment := GTextAlignment.GTextAlignmentCenter },
    s_date_text := { text := List.replicate 32 NUL, font := { key := "LECO_20_BOLD_NUMBERS" },
                     alignment := GTextAlignment.GTextAlignmentCenter },
    s_date_line1 := List.replicate 16 NUL, s_date_line2 := List.replicate 16 NUL,
    s_steps_line1 := List.replicate 16 NUL, s_steps_line2 := List.replicate 16 NUL,
    s_battery_line1 := List.replicate 16 NUL, s_battery_line2 := List.replicate 16 NUL,
    marked := [] }

/-- A sample host: 2024-03-07 13:05, 24-hour style, 4532 steps, battery at 73. -/
def sample_host : Host :=
  { localtime := { tm_min := 5, tm_hour := 13, tm_mday := 7, tm_mon := 2, tm_year := 124 },
    clock_is_24h_style := true, steps_available := true,
    health_service_sum_today := 4532, charge_percent := 73 }

/-- The two decimal digits of `n`, tens first. -/
def two_digits (n : Nat) : List Char :=
  [Char.ofNat (48 + n / 10), Char.ofNat (48 + n % 10)]

/-- A broken-down time in the ranges that `localtime` produces, with a year
that fits a C `int`. -/
def valid_tm (tm : Tm) : Prop :=
  (0 ≤ tm.tm_min ∧ tm.tm_min < 60) ∧ (0 ≤ tm.tm_hour ∧ tm.tm_hour < 24) ∧
  (1 ≤ tm.tm_mday ∧ tm.tm_mday ≤ 31) ∧ (0 ≤ tm.tm_mon ∧ tm.tm_mon < 12) ∧
  (-2147483648 ≤ tm.tm_year + 1900 ∧ tm.tm_year + 1900 < 2147483648)

instance (tm : Tm) : Decidable (valid_tm tm) := by
  unfold valid_tm
  infer_instance

/-- The layers among `layers` that exist (are not the null pointer), as the
guarded calls `if (layer) layer_mark_dirty(layer)` record them. -/
def existing (layers : List (Option Nat)) : List (Option Nat) :=
  layers.filter (fun l => l.isSome)

/-! ## Lemmas on the texture loops -/

theorem digitChar_ne_NUL : ∀ d : Nat, d < 10 → Nat.digitChar d ≠ NUL := by
  decide

theorem toDigitsCore_ne_NUL (fuel : Nat) : ∀ (n : Nat) (acc : List Char),
    (∀ c ∈ acc, c ≠ NUL) → ∀ c ∈ Nat.toDigitsCore 10 fuel n acc, c ≠ NUL := by
  induction fuel with
  | zero =>
    intro n acc hacc c hc
    simp only [Nat.toDigitsCore] at hc
    exact hacc c hc
  | succ fuel ih =>
    intro n acc hacc c hc
    simp only [Nat.toDigitsCore] at hc
    have hacc2 : ∀ c ∈ Nat.digitChar (n % 10) :: acc, c ≠ NUL := by
      intro c hc
      rcases List.mem_cons.mp hc with h | h
      · rw [h]
        exact digitChar_ne_NUL _ (Nat.mod_lt _ (by decide))
      · exact hacc c h
    split at hc
    · exact hacc2 c hc
    · exact ih _ _ hacc2 c hc

theorem toDigits_ne_NUL (n : Nat) : ∀ c ∈ Nat.toDigits 10 n, c ≠ NUL := by
  unfold Nat.toDigits
  exact toDigitsCore_ne_NUL _ _ _ (by simp)

theorem toDigits_length_le (n e : Nat) (he : 0 < e) (hn : n < 10 ^ e) :
    (Nat.toDigits 10 n).length ≤ e := by
  unfold Nat.toDigits
  exact Nat.toDigitsCore_length 10 (by decide) _ n e hn he

theorem fmt_d_ne_NUL (v : Int) : ∀ c ∈ fmt_d v, c ≠ NUL := by
  cases v with
  | ofNat n => exact toDigits_ne_NUL n
  | negSucc n =>
    intro c hc
    simp only [fmt_d] at hc
    rcases List.mem_cons.mp hc with h | h
    · rw [h]
      decide
    · exact toDigits_ne_NUL _ c h

theorem fmt_d_natCast (n : Nat) : fmt_d (n : Int) = Nat.toDigits 10 n := rfl

theorem fmt_d_toString (v : Int) : String.mk (fmt_d v) = toString v := by
  cases v with
  | ofNat n => rfl
  | negSucc n => rfl

/-- The C string read back from an array that starts with `out` and a NUL. -/
theorem cstr_store (out rest : List Char) (h : ∀ c ∈ out, c ≠ NUL) :
    cstr ((out ++ [NUL]) ++ rest) = String.mk out := by
  unfold cstr
  congr 1
  rw [List.append_assoc, List.takeWhile_append_of_pos]
  · simp
  · intro c hc
    simpa using h c hc

theorem cstr_snprintf (buf : List Char) (size : Nat) (fmt : String) (args : List Int)
    (hlen : (vformat fmt.toList args).length < size)
    (hnul : ∀ c ∈ vformat fmt.toList args, c ≠ NUL) :
    cstr (snprintf buf size fmt args) = String.mk (vformat fmt.toList args) := by
  unfold snprintf
  have h0 : size ≠ 0 := by omega
  simp only [h0, if_false]
  rw [List.take_of_length_le (by omega)]
  exact cstr_store _ _ hnul

theorem cstr_strftime (buf : List Char) (maxsize : Nat) (fmt : String) (tm : Tm)
    (hlen : (tmformat fmt.toList tm).length < maxsize)
    (hnul : ∀ c ∈ tmformat fmt.toList tm, c ≠ NUL) :
    cstr (strftime buf maxsize fmt tm) = String.mk (tmformat fmt.toList tm) := by
  unfold strftime
  have h0 : (tmformat fmt.toList tm).length + 1 ≤ maxsize := by omega
  simp only [h0, if_true]
  exact cstr_store _ _ hnul

theorem store_twice (out buf : List Char) :
    out ++ (out ++ buf.drop out.length).drop out.length = out ++ buf.drop out.length := by
  rw [List.drop_left]

theorem snprintf_twice (buf : List Char) (size : Nat) (fmt : String) (args : List Int) :
    snprintf (snprintf buf size fmt args) size fmt args = snprintf buf size fmt args := by
  unfold snprintf
  by_cases h0 : size = 0
  · simp [h0]
  · simp only [h0, if_false]
    exact store_twice _ _

theorem strftime_twice (buf : List Char) (maxsize : Nat) (fmt : String) (tm : Tm) :
    strftime (strftime buf maxsize fmt tm) maxsize fmt tm = strftime buf maxsize fmt tm := by
  unfold strftime
  by_cases h0 : (tmformat fmt.toList tm).length + 1 ≤ maxsize
  · simp only [h0, if_true]
    have := store_twice (tmformat fmt.toList tm ++ [NUL]) buf
    simp at this ⊢
  · simp only [h0, if_false]

theorem fmt_02d_two_digits : ∀ n : Nat, n < 100 → fmt_02d (n : Int) = two_digits n := by
  decide

theorem two_digits_ne_NUL : ∀ n : Nat, n < 100 → ∀ c ∈ two_digits n, c ≠ NUL := by
  decide

theorem tmformat_HM (tm : Tm) :
    tmformat "%H:%M".toList tm = fmt_02d tm.tm_hour ++ ':' :: fmt_02d tm.tm_min := by
  show tmformat ['%', 'H', ':', '%', 'M'] tm = _
  simp [tmformat]

theorem tmformat_IM (tm : Tm) :
    tmformat "%I:%M".toList tm = fmt_02d (hour12 tm.tm_hour) ++ ':' :: fmt_02d tm.tm_min := by
  show tmformat ['%', 'I', ':', '%', 'M'] tm = _
  simp [tmformat]

theorem tmformat_md (tm : Tm) :
    tmformat "%m/%d".toList tm = fmt_02d (tm.tm_mon + 1) ++ '/' :: fmt_02d tm.tm_mday := by
  show tmformat ['%', 'm', '/', '%', 'd'] tm = _
  simp [tmformat]

theorem tmformat_Y (tm : Tm) : tmformat "%Y".toList tm = fmt_d (tm.tm_year + 1900) := by
  show tmformat ['%', 'Y'] tm = _
  simp [tmformat]

theorem vformat_dk (a : Int) : vformat "%dk".toList [a] = fmt_d a ++ ['k'] := by
  show vformat ['%', 'd', 'k'] [a] = _
  simp [vformat]

theorem vformat_d (a : Int) : vformat "%d".toList [a] = fmt_d a := by
  show vformat ['%', 'd'] [a] = _
  simp [vformat]

theorem hour12_natCast : ∀ h : Nat, h < 24 →
    hour12 (h : Int) = ((if h % 12 = 0 then 12 else h % 12 : Nat) : Int) := by
  decide

theorem hour12_lt : ∀ h : Nat, h < 24 → (if h % 12 = 0 then 12 else h % 12) < 100 := by
  decide

theorem update_time_twice (host : Host) (st : AppState) :
    text_buffers (update_time host (update_time host st)) = text_buffers (update_time host st) := by
  simp [text_buffers, update_time, layer_mark_dirty, strftime_twice]

theorem update_steps_twice (host : Host) (st : AppState) :
    text_buffers (update_steps host (update_steps host st)) = text_buffers (update_steps host st) := by
  cases hav : host.steps_available <;>
  cases h1 : st.s_steps_value_layer <;> cases h2 : st.s_steps_label_layer <;>
  simp [text_buffers, update_steps, layer_mark_dirty, snprintf_twice, hav, h1, h2]

theorem update_battery_twice (host : Host) (st : AppState) :
    text_buffers (update_battery host (update_battery host st)) =
      text_buffers (update_battery host st) := by
  cases h1 : st.s_battery_value_layer <;> cases h2 : st.s_battery_label_layer <;>
  simp [text_buffers, update_battery, layer_mark_dirty, snprintf_twice, h1, h2]

/-! ## What each refresher stores -/

theorem update_time_time_text (host : Host) (st : AppState) :
    (update_time host st).s_time_text.text = strftime st.s_time_text.text 32
      (if host.clock_is_24h_style then "%H:%M" else "%I:%M") host.localtime := by
  simp [update_time, layer_mark_dirty]

theorem update_time_date_line1 (host : Host) (st : AppState) :
    (update_time host st).s_date_line1 = strftime st.s_date_line1 16 "%m/%d" host.localtime := by
  simp [update_time, layer_mark_dirty]

theorem update_time_date_line2 (host : Host) (st : AppState) :
    (update_time host st).s_date_line2 = strftime st.s_date_line2 16 "%Y" host.localtime := by
  simp [update_time, layer_mark_dirty]

theorem update_steps_line1 (host : Host) (st : AppState) :
    (update_steps host st).s_steps_line1 =
      if host.steps_available then
        snprintf st.s_steps_line1 16 "%dk" [Int.tdiv host.health_service_sum_today 1000]
      else snprintf st.s_steps_line1 16 "--k" [] := by
  cases hav : host.steps_available <;>
  cases h1 : st.s_steps_value_layer <;> cases h2 : st.s_steps_label_layer <;>
  simp [update_steps, layer_mark_dirty, hav, h1, h2]

theorem update_steps_line2 (host : Host) (st : AppState) :
    (update_steps host st).s_steps_line2 = snprintf st.s_steps_line2 16 "STEP" [] := by
  cases hav : host.steps_available <;>
  cases h1 : st.s_steps_value_layer <;> cases h2 : st.s_steps_label_layer <;>
  simp [update_steps, layer_mark_dirty, hav, h1, h2]

theorem update_battery_line1 (host : Host) (st : AppState) :
    (update_battery host st).s_battery_line1 =
      snprintf st.s_battery_line1 16 "%d" [(host.charge_percent : Int)] := by
  cases h1 : st.s_battery_value_layer <;> cases h2 : st.s_battery_label_layer <;>
  simp [update_battery, layer_mark_dirty, h1, h2]

theorem update_battery_line2 (host : Host) (st : AppState) :
    (update_battery host st).s_battery_line2 = snprintf st.s_battery_line2 16 "BAT" [] := by
  cases h1 : st.s_battery_value_layer <;> cases h2 : st.s_battery_label_layer <;>
  simp [update_battery, layer_mark_dirty, h1, h2]

theorem cstr_snprintf_literal (buf : List Char) (lit : String)
    (hlen : (vformat lit.toList []).length < 16)
    (hnul : ∀ c ∈ vformat lit.toList [], c ≠ NUL)
    (hlit : String.mk (vformat lit.toList []) = lit) :
    cstr (snprintf buf 16 lit []) = lit := by
  rw [cstr_snprintf buf 16 lit [] hlen hnul, hlit]

theorem fmt_02d_of_range (v : Int) (h0 : 0 ≤ v) (h1 : v < 100) :
    fmt_02d v = two_digits v.toNat := by
  obtain ⟨n, rfl⟩ := Int.eq_ofNat_of_zero_le h0
  exact fmt_02d_two_digits n (by omega)

theorem hour12_range (v : Int) (h0 : 0 ≤ v) (h1 : v < 24) :
    0 ≤ hour12 v ∧ hour12 v < 100 := by
  obtain ⟨n, rfl⟩ := Int.eq_ofNat_of_zero_le h0
  have hn : n < 24 := by omega
  rw [hour12_natCast n hn]
  have := hour12_lt n hn
  omega

theorem fmt_d_length_le (v : Int) (h0 : -10000000000 < v) (h1 : v < 10000000000) :
    (fmt_d v).length ≤ 11 := by
  cases v with
  | ofNat n =>
    have hn : (n : Int) < 10000000000 := h1
    have := toDigits_length_le n 10 (by decide) (by omega)
    simp only [fmt_d]
    omega
  | negSucc n =>
    have hn : -10000000000 < -((n : Int) + 1) := by
      rw [← Int.negSucc_eq]
      exact h0
    have := toDigits_length_le (n + 1) 10 (by decide) (by omega)
    simp only [fmt_d, List.length_cons]
    omega

/-- For a valid broken-down time the three strings that `update_time` formats
fit their arrays, NUL included. -/
theorem update_time_fits (host : Host) (hvalid : valid_tm host.localtime) :
    (tmformat (if host.clock_is_24h_style then "%H:%M" else "%I:%M").toList
        host.localtime).length + 1 ≤ 32 ∧
    (tmformat "%m/%d".toList host.localtime).length + 1 ≤ 16 ∧
    (tmformat "%Y".toList host.localtime).length + 1 ≤ 16 := by
  obtain ⟨⟨hm0, hm1⟩, ⟨hh0, hh1⟩, ⟨hd0, hd1⟩, ⟨hmo0, hmo1⟩, ⟨hy0, hy1⟩⟩ := hvalid
  have hmin := fmt_02d_of_range _ hm0 (by omega)
  have hhour := fmt_02d_of_range _ hh0 (by omega)
  have h12 := hour12_range _ hh0 hh1
  have hhour12 := fmt_02d_of_range _ h12.1 h12.2
  have hday := fmt_02d_of_range host.localtime.tm_mday (by omega) (by omega)
  have hmon := fmt_02d_of_range (host.localtime.tm_mon + 1) (by omega) (by omega)
  have hyear := fmt_d_length_le (host.localtime.tm_year + 1900) (by omega) (by omega)
  refine ⟨?_, ?_, ?_⟩
  · cases host.clock_is_24h_style
    · simp only [Bool.false_eq_true, if_false]
      rw [tmformat_IM, hhour12, hmin]
      simp [two_digits]
    · simp only [if_true]
      rw [tmformat_HM, hhour, hmin]
      simp [two_digits]
  · rw [tmformat_md, hmon, hday]
    simp [two_digits]
  · rw [tmformat_Y]
    omega

/-! ## The claims -/

/-- C1: for every rectangle `R` and every text field (text, font, alignment),
`draw_outlined_text` adds exactly five text draws, in this order: four in white
at `R` shifted by (-1,0), (+1,0), (0,-1), (0,+1), then one in black at `R`
itself; all five carry the same text, font and alignment, the size of `R` and
the trailing-ellipsis overflow mode. -/
theorem draw_outlined_text_five_draws (ctx : GContext) (text_data : OutlinedText) (R : GRect) :
    (draw_outlined_text ctx text_data R).ops = ctx.ops ++
      [ DrawOp.text GColorWhite (cstr text_data.text) text_data.font (R.shift (-1) 0)
          GTextOverflowModeTrailingEllipsis text_data.alignment,
        DrawOp.text GColorWhite (cstr text_data.text) text_data.font (R.shift 1 0)
          GTextOverflowModeTrailingEllipsis text_data.alignment,
        DrawOp.text GColorWhite (cstr text_data.text) text_data.font (R.shift 0 (-1))
          GTextOverflowModeTrailingEllipsis text_data.alignment,
        DrawOp.text GColorWhite (cstr text_data.text) text_data.font (R.shift 0 1)
          GTextOverflowModeTrailingEllipsis text_data.alignment,
        DrawOp.text GColorBlack (cstr text_data.text) text_data.font R
          GTextOverflowModeTrailingEllipsis text_data.alignment ] := by
  simp only [draw_outlined_text, graphics_draw_text, graphics_context_set_text_color,
    GRect.shift, List.append_assoc, List.singleton_append, List.cons_append, List.nil_append]
  congr 1
  simp only [List.cons.injEq, DrawOp.text.injEq, GRect.mk.injEq, GPoint.mk.injEq, true_and,
    and_true]
  omega

/-- C10: for every layer rectangle `(x, y, w, h)`, date lines and date field,
what `date_layer_update` draws is what `draw_outlined_text` draws on
`(x, y, w, 18)` with line 1, followed by what it draws on `(x, y + 18, w, 18)`
with line 2, with the date font and alignment: ten draws in all. -/
theorem date_layer_update_eq_two_outlined (ctx : GContext) (x y w h : Int)
    (s_date_line1 s_date_line2 : List Char) (s_date_text : OutlinedText) :
    (date_layer_update ctx (GRect.make x y w h) s_date_line1 s_date_line2 s_date_text).ops =
      ctx.ops ++
        (issued (fun c => draw_outlined_text c
          { text := s_date_line1, font := s_date_text.font, alignment := s_date_text.alignment }
          (GRect.make x y w 18)) ++
        issued (fun c => draw_outlined_text c
          { text := s_date_line2, font := s_date_text.font, alignment := s_date_text.alignment }
          (GRect.make x (y + 18) w 18))) ∧
    (issued (fun c => date_layer_update c (GRect.make x y w h) s_date_line1 s_date_line2
      s_date_text)).length = 10 := by
  constructor
  · simp [date_layer_update, draw_outlined_text, issued, graphics_draw_text,
      graphics_context_set_text_color, GRect.make]
  · simp [date_layer_update, issued, graphics_draw_text, graphics_context_set_text_color]

/-- C4: when step data is accessible and the step total n is a non-negative
C `int`, `update_steps` leaves in the step value array the full decimal
representation of n / 1000 followed by "k"; when it is not accessible it leaves
"--k"; in both cases the step label array holds "STEP". -/
theorem update_steps_buffers (host : Host) (st : AppState)
    (hrange : host.steps_available = true →
      0 ≤ host.health_service_sum_today ∧ host.health_service_sum_today < 2147483648) :
    cstr (update_steps host st).s_steps_line1 =
      (if host.steps_available then toString (host.health_service_sum_today / 1000) ++ "k"
       else "--k") ∧
    cstr (update_steps host st).s_steps_line2 = "STEP" := by
  constructor
  · rw [update_steps_line1]
    cases hav : host.steps_available
    · simp only [Bool.false_eq_true, if_false]
      exact cstr_snprintf_literal _ "--k" (by decide) (by decide) (by decide)
    · simp only [if_true]
      obtain ⟨h0, h1⟩ := hrange hav
      have hdiv : Int.tdiv host.health_service_sum_today 1000 =
          host.health_service_sum_today / 1000 := Int.tdiv_eq_ediv h0 (by decide)
      rw [hdiv]
      obtain ⟨k, hk⟩ := Int.eq_ofNat_of_zero_le
        (show 0 ≤ host.health_service_sum_today / 1000 by omega)
      have hklt : k < 10 ^ 7 := by omega
      have hlen := toDigits_length_le k 7 (by decide) hklt
      rw [cstr_snprintf _ _ _ _ (by rw [vformat_dk, hk]; simpa [fmt_d_natCast] using by omega)
        (by
          rw [vformat_dk]
          intro c hc
          rcases List.mem_append.mp hc with h | h
          · exact fmt_d_ne_NUL _ c h
          · rw [List.mem_singleton.mp h]
            decide)]
      rw [vformat_dk, ← fmt_d_toString]
      rfl
  · rw [update_steps_line2]
    exact cstr_snprintf_literal _ "STEP" (by decide) (by decide) (by decide)

/-- C4, witness: 4532 accessible steps give "4k" and "STEP". -/
theorem update_steps_buffers_witness :
    cstr (update_steps sample_host sample_state).s_steps_line1 = "4k" ∧
    cstr (update_steps sample_host sample_state).s_steps_line2 = "STEP" :=
  update_steps_buffers sample_host sample_state (fun _ => by decide)

/-- C5: for every wall-clock time with hour h in 0..23 and minute m in 0..59,
`update_time` leaves in the time text a two-digit hour, a colon and the
two-digit minute m; the hour is h under the 24-hour preference and the
12-hour clock hour (h mod 12, with 0 shown as 12) otherwise. -/
theorem update_time_clock (host : Host) (st : AppState) (h m : Nat)
    (hhour : host.localtime.tm_hour = (h : Int)) (hmin : host.localtime.tm_min = (m : Int))
    (hh : h < 24) (hm : m < 60) :
    cstr (update_time host st).s_time_text.text =
      String.mk (two_digits (if host.clock_is_24h_style then h
          else if h % 12 = 0 then 12 else h % 12) ++ ':' :: two_digits m) := by
  rw [update_time_time_text]
  have hM : fmt_02d host.localtime.tm_min = two_digits m := by
    rw [hmin]
    exact fmt_02d_two_digits m (by omega)
  have hMn := two_digits_ne_NUL m (by omega)
  cases host.clock_is_24h_style
  · have hI : fmt_02d (hour12 host.localtime.tm_hour) =
        two_digits (if h % 12 = 0 then 12 else h % 12) := by
      rw [hhour, hour12_natCast h hh]
      exact fmt_02d_two_digits _ (hour12_lt h hh)
    have hIn := two_digits_ne_NUL _ (hour12_lt h hh)
    simp only [Bool.false_eq_true, if_false]
    rw [cstr_strftime _ _ _ _ (by rw [tmformat_IM, hI, hM]; simp [two_digits])
      (by
        rw [tmformat_IM, hI, hM]
        intro c hc
        rcases List.mem_append.mp hc with h1 | h1
        · exact hIn c h1
        · rcases List.mem_cons.mp h1 with h2 | h2
          · rw [h2]
            decide
          · exact hMn c h2)]
    rw [tmformat_IM, hI, hM]
  · have hH : fmt_02d host.localtime.tm_hour = two_digits h := by
      rw [hhour]
      exact fmt_02d_two_digits h (by omega)
    have hHn := two_digits_ne_NUL h (by omega)
    simp only [if_true]
    rw [cstr_strftime _ _ _ _ (by rw [tmformat_HM, hH, hM]; simp [two_digits])
      (by
        rw [tmformat_HM, hH, hM]
        intro c hc
        rcases List.mem_append.mp hc with h1 | h1
        · exact hHn c h1
        · rcases List.mem_cons.mp h1 with h2 | h2
          · rw [h2]
            decide
          · exact hMn c h2)]
    rw [tmformat_HM, hH, hM]

/-- C5, witness: 13:05 gives "13:05" under the 24-hour preference and "01:05"
under the 12-hour one. -/
theorem update_time_clock_witness :
    cstr (update_time sample_host sample_state).s_time_text.text = "13:05" ∧
    cstr (update_time { sample_host with clock_is_24h_style := false }
      sample_state).s_time_text.text = "01:05" :=
  ⟨update_time_clock sample_host sample_state 13 5 rfl rfl (by decide) (by decide),
   update_time_clock { sample_host with clock_is_24h_style := false } sample_state 13 5
     rfl rfl (by decide) (by decide)⟩

/-- C6: for every calendar date with month 1..12, day 1..31 and a four-digit
year, `update_time` leaves in date line 1 the two-digit month, a slash and the
two-digit day, and in date line 2 the year in decimal. -/
theorem update_time_date (host : Host) (st : AppState) (month day year : Nat)
    (hmon : host.localtime.tm_mon + 1 = (month : Int))
    (hday : host.localtime.tm_mday = (day : Int))
    (hyear : host.localtime.tm_year + 1900 = (year : Int))
    (hm : 1 ≤ month ∧ month ≤ 12) (hd : 1 ≤ day ∧ day ≤ 31)
    (hy : 1000 ≤ year ∧ year ≤ 9999) :
    cstr (update_time host st).s_date_line1 =
      String.mk (two_digits month ++ '/' :: two_digits day) ∧
    cstr (update_time host st).s_date_line2 = toString year := by
  have hMo : fmt_02d (host.localtime.tm_mon + 1) = two_digits month := by
    rw [hmon]
    exact fmt_02d_two_digits month (by omega)
  have hD : fmt_02d host.localtime.tm_mday = two_digits day := by
    rw [hday]
    exact fmt_02d_two_digits day (by omega)
  have hMon := two_digits_ne_NUL month (by omega)
  have hDn := two_digits_ne_NUL day (by omega)
  constructor
  · rw [update_time_date_line1]
    rw [cstr_strftime _ _ _ _ (by rw [tmformat_md, hMo, hD]; simp [two_digits])
      (by
        rw [tmformat_md, hMo, hD]
        intro c hc
        rcases List.mem_append.mp hc with h1 | h1
        · exact hMon c h1
        · rcases List.mem_cons.mp h1 with h2 | h2
          · rw [h2]
            decide
          · exact hDn c h2)]
    rw [tmformat_md, hMo, hD]
  · rw [update_time_date_line2]
    have hlen := toDigits_length_le year 4 (by decide) (by omega)
    rw [cstr_strftime _ _ _ _ (by rw [tmformat_Y, hyear, fmt_d_natCast]; omega)
      (by
        rw [tmformat_Y]
        exact fmt_d_ne_NUL _)]
    rw [tmformat_Y, hyear]
    rfl

/-- C6, witness: 2024-03-07 gives "03/07" and "2024". -/
theorem update_time_date_witness :
    cstr (update_time sample_host sample_state).s_date_line1 = "03/07" ∧
    cstr (update_time sample_host sample_state).s_date_line2 = "2024" :=
  update_time_date sample_host sample_state 3 7 2024 rfl rfl rfl (by decide) (by decide)
    (by decide)

/-- C7: for every battery charge percentage p in 0..100, `update_battery`
leaves in the battery value array exactly the decimal representation of p and
in the battery label array "BAT". -/
theorem update_battery_buffers (host : Host) (st : AppState)
    (hp : host.charge_percent ≤ 100) :
    cstr (update_battery host st).s_battery_line1 = toString host.charge_percent ∧
    cstr (update_battery host st).s_battery_line2 = "BAT" := by
  constructor
  · rw [update_battery_line1]
    have hlen := toDigits_length_le host.charge_percent 3 (by decide) (by omega)
    rw [cstr_snprintf _ _ _ _ (by rw [vformat_d, fmt_d_natCast]; omega)
      (by
        rw [vformat_d]
        exact fmt_d_ne_NUL _)]
    rw [vformat_d]
    rfl
  · rw [update_battery_line2]
    exact cstr_snprintf_literal _ "BAT" (by decide) (by decide) (by decide)

/-- C7, witness: a charge of 73 gives "73" and "BAT". -/
theorem update_battery_buffers_witness :
    cstr (update_battery sample_host sample_state).s_battery_line1 = "73" ∧
    cstr (update_battery sample_host sample_state).s_battery_line2 = "BAT" :=
  update_battery_buffers sample_host sample_state (by decide)

/-- C8: each of the three refreshers is idempotent on the text arrays: for
every starting state and fixed host data (a valid clock time, the 12/24
preference, step accessibility and total, battery percentage), running the
refresher twice leaves every text array byte for byte as one run leaves it.
For such a clock time the strings of `update_time` fit their arrays. -/
theorem refreshers_idempotent (host : Host) (st : AppState)
    (hvalid : valid_tm host.localtime) :
    text_buffers (update_time host (update_time host st)) =
      text_buffers (update_time host st) ∧
    text_buffers (update_steps host (update_steps host st)) =
      text_buffers (update_steps host st) ∧
    text_buffers (update_battery host (update_battery host st)) =
      text_buffers (update_battery host st) ∧
    ((tmformat (if host.clock_is_24h_style then "%H:%M" else "%I:%M").toList
        host.localtime).length + 1 ≤ 32 ∧
     (tmformat "%m/%d".toList host.localtime).length + 1 ≤ 16 ∧
     (tmformat "%Y".toList host.localtime).length + 1 ≤ 16) :=
  ⟨update_time_twice host st, update_steps_twice host st, update_battery_twice host st,
   update_time_fits host hvalid⟩

/-- C8, witness: the sample host and state. -/
theorem refreshers_idempotent_witness :
    valid_tm sample_host.localtime ∧
    text_buffers (update_time sample_host (update_time sample_host sample_state)) =
      text_buffers (update_time sample_host sample_state) ∧
    text_buffers (update_steps sample_host (update_steps sample_host sample_state)) =
      text_buffers (update_steps sample_host sample_state) ∧
    text_buffers (update_battery sample_host (update_battery sample_host sample_state)) =
      text_buffers (update_battery sample_host sample_state) :=
  have hv : valid_tm sample_host.localtime := by decide
  have h := refreshers_idempotent sample_host sample_state hv
  ⟨hv, h.1, h.2.1, h.2.2.1⟩

/-- C9, counterexample: handling a tick is not the time/date refresher alone.
From the sample state, with 4532 accessible steps and a charge of 73, the tick
handler also writes "4k" and "73" into the step and battery value arrays and
marks the step and battery layers (3, 4, 5, 6) dirty after the time and date
layers (1, 2). -/
theorem tick_handler_counterexample :
    tick_handler sample_host sample_state ≠ update_time sample_host sample_state ∧
    cstr (update_time sample_host sample_state).s_steps_line1 = "" ∧
    cstr (tick_handler sample_host sample_state).s_steps_line1 = "4k" ∧
    cstr (update_time sample_host sample_state).s_battery_line1 = "" ∧
    cstr (tick_handler sample_host sample_state).s_battery_line1 = "73" ∧
    (update_time sample_host sample_state).marked = [some 1, some 2] ∧
    (tick_handler sample_host sample_state).marked =
      [some 1, some 2, some 3, some 4, some 5, some 6] := by
  decide

/-- C9, amended: handling a battery-state change invokes only the battery
refresher, and handling a health movement update invokes only the steps
refresher (other health events change nothing): each of these two handlers
leaves the arrays of the other refreshers as they were and marks only its own
existing layers dirty. Handling a per-minute tick invokes the three
refreshers, time/date, then steps, then battery: it leaves in each array what
that array's refresher leaves, and marks the time and date layers, then the
existing step layers, then the existing battery layers. -/
theorem handlers_refreshers (host : Host) (st : AppState) :
    (battery_handler host st = update_battery host st ∧
      (battery_handler host st).s_time_text = st.s_time_text ∧
      (battery_handler host st).s_date_text = st.s_date_text ∧
      (battery_handler host st).s_date_line1 = st.s_date_line1 ∧
      (battery_handler host st).s_date_line2 = st.s_date_line2 ∧
      (battery_handler host st).s_steps_line1 = st.s_steps_line1 ∧
      (battery_handler host st).s_steps_line2 = st.s_steps_line2 ∧
      (battery_handler host st).marked =
        st.marked ++ existing [st.s_battery_value_layer, st.s_battery_label_layer]) ∧
    (health_handler host HealthEventType.HealthEventMovementUpdate st = update_steps host st ∧
      (∀ event, event ≠ HealthEventType.HealthEventMovementUpdate →
        health_handler host event st = st) ∧
      (health_handler host HealthEventType.HealthEventMovementUpdate st).s_time_text =
        st.s_time_text ∧
      (health_handler host HealthEventType.HealthEventMovementUpdate st).s_date_text =
        st.s_date_text ∧
      (health_handler host HealthEventType.HealthEventMovementUpdate st).s_date_line1 =
        st.s_date_line1 ∧
      (health_handler host HealthEventType.HealthEventMovementUpdate st).s_date_line2 =
        st.s_date_line2 ∧
      (health_handler host HealthEventType.HealthEventMovementUpdate st).s_battery_line1 =
        st.s_battery_line1 ∧
      (health_handler host HealthEventType.HealthEventMovementUpdate st).s_battery_line2 =
        st.s_battery_line2 ∧
      (health_handler host HealthEventType.HealthEventMovementUpdate st).marked =
        st.marked ++ existing [st.s_steps_value_layer, st.s_steps_label_layer]) ∧
    (tick_handler host st = update_battery host (update_steps host (update_time host st)) ∧
      (tick_handler host st).s_time_text = (update_time host st).s_time_text ∧
      (tick_handler host st).s_date_text = st.s_date_text ∧
      (tick_handler host st).s_date_line1 = (update_time host st).s_date_line1 ∧
      (tick_handler host st).s_date_line2 = (update_time host st).s_date_line2 ∧
      (tick_handler host st).s_steps_line1 = (update_steps host st).s_steps_line1 ∧
      (tick_handler host st).s_steps_line2 = (update_steps host st).s_steps_line2 ∧
      (tick_handler host st).s_battery_line1 = (update_battery host st).s_battery_line1 ∧
      (tick_handler host st).s_battery_line2 = (update_battery host st).s_battery_line2 ∧
      (tick_handler host st).marked =
        st.marked ++ [st.s_time_layer, st.s_date_layer] ++
          existing [st.s_steps_value_layer, st.s_steps_label_layer] ++
          existing [st.s_battery_value_layer, st.s_battery_label_layer]) := by
  refine ⟨?_, ?_, ?_⟩
  · cases h1 : st.s_battery_value_layer <;> cases h2 : st.s_battery_label_layer <;>
      simp [battery_handler, update_battery, layer_mark_dirty, existing, h1, h2]
  · refine ⟨by simp [health_handler], fun event hne => by simp [health_handler, hne], ?_⟩
    cases hav : host.steps_available <;>
    cases h1 : st.s_steps_value_layer <;> cases h2 : st.s_steps_label_layer <;>
      simp [health_handler, update_steps, layer_mark_dirty, existing, hav, h1, h2]
  · refine ⟨rfl, ?_⟩
    cases hav : host.steps_available <;>
    cases h1 : st.s_steps_value_layer <;> cases h2 : st.s_steps_label_layer <;>
    cases h3 : st.s_battery_value_layer <;> cases h4 : st.s_battery_label_layer <;>
      simp [tick_handler, update_time, update_steps, update_battery, layer_mark_dirty, existing,
        hav, h1, h2, h3, h4]

end PebbleVault
